import Mathlib

/-!
Verification of the keepalived pointer-cast facility
(`src/tools/keepalived/lib/align.h`).

The header defines four cast macros (`PTR_CAST`, `PTR_CAST_CONST`,
`PTR_CAST2`, `PTR_CAST2_CONST`) that all funnel through
`PTR_CAST_ALL` / `PTR_CAST2_ALL`, whose behaviour is selected by two
build-time switches: `CAST_VIA_VOID` (route the cast through a
`void *` intermediate) and `CHECK_CAST_ALIGN` (runtime alignment
validation with a diagnostic message on mismatch).

We embed the macros as pure Lean functions over numeric addresses.
Pointer values are modelled by their address (`Nat`) together with a
const-qualification flag; C pointer conversions (including the ones
through `void *`) preserve the address, so the `__CAST_PTR` stage is
the identity on the address while keeping the routing explicit.
Diagnostics are collected in a list, each record carrying the output
sink actually used by the code (`log_message` for the structured
logger, `printf` for the raw one in the intermediate-type check of
`PTR_CAST2_ALL`) and the data interpolated into the format string.
-/

/-- The two build-time configuration switches of `align.h`:
`CAST_VIA_VOID` and `CHECK_CAST_ALIGN`. -/
structure Config where
  castViaVoid : Bool
  checkCastAlign : Bool
deriving DecidableEq, Repr

/-- Compile-time description of a C type as used by the macros:
its name (used via `#__type` stringification) and its
`__alignof__` value. -/
structure TypeDesc where
  name : String
  alignment : Nat
deriving DecidableEq, Repr

/-- Compile-time description of a field of a structure type:
its name and its `offsetof` byte offset within the structure. -/
structure FieldDesc where
  name : String
  offset : Nat
deriving DecidableEq, Repr

/-- The output routine a diagnostic was emitted through:
the structured logger `log_message` or plain `printf`. -/
inductive Sink where
  | log_message : Sink
  | printf : Sink
deriving DecidableEq, Repr

/-- One emitted alignment diagnostic, with the sink used and the data
interpolated into the message: the cast-to type name, the stringified
pointer expression, the required alignment (`%zu`) and the offending
address (`%p`). -/
structure Diagnostic where
  sink : Sink
  typeName : String
  expr : String
  alignment : Nat
  address : Nat
deriving DecidableEq, Repr

/-- A pointer value as returned by the casts: its address and whether
the result type is const-qualified (`__const` macro parameter). -/
structure Ptr where
  addr : Nat
  isConst : Bool
deriving DecidableEq, Repr

/-- Conversion of a pointer to `void *` (address-preserving in C). -/
def castToVoid (a : Nat) : Nat := a

/-- Conversion of a `void *` back to a typed pointer
(address-preserving in C). -/
def castFromVoid (a : Nat) : Nat := a

/-- `__CAST_PTR(__const)`: with `CAST_VIA_VOID` the cast is routed
through a `(__const void *)` stage, otherwise the macro expands to
nothing and the cast is direct.  Either way the address is unchanged. -/
def __CAST_PTR (cfg : Config) (a : Nat) : Nat :=
  if cfg.castViaVoid then castFromVoid (castToVoid a) else a

/-- `PTR_CAST_ALL(__type, __ptr, __const)`.

With `CHECK_CAST_ALIGN`: save the pointer, test
`(long)sav_ptr % __alignof__(__type)`, emit one `log_message`
diagnostic if nonzero, and return
`(__const __type *) __CAST_PTR(__const) (sav_ptr)`.

Without it: just `(__const __type *) __CAST_PTR(__const) (__ptr)`.

`ptrExpr` is the stringification `#__ptr` of the pointer argument.
The result is the returned pointer together with the list of
diagnostics emitted, in order. -/
def PTR_CAST_ALL (cfg : Config) (ty : TypeDesc) (ptrExpr : String)
    (ptr : Nat) (isConst : Bool) : Ptr × List Diagnostic :=
  if cfg.checkCastAlign then
    let sav_ptr := ptr
    let diags : List Diagnostic :=
      if sav_ptr % ty.alignment ≠ 0 then
        [{ sink := Sink.log_message, typeName := ty.name, expr := ptrExpr,
           alignment := ty.alignment, address := sav_ptr }]
      else []
    ({ addr := __CAST_PTR cfg sav_ptr, isConst := isConst }, diags)
  else
    ({ addr := __CAST_PTR cfg ptr, isConst := isConst }, [])

/-- `PTR_CAST2_ALL(__type, __type1, __ptr, __field, __const)`.

With `CHECK_CAST_ALIGN`: save the pointer, test
`(long)sav_ptr1 % __alignof__(__type1)` and emit one `printf`
diagnostic if nonzero, then delegate to `PTR_CAST_ALL` on the field
address `&(((__const __type1 *) __CAST_PTR(__const) (sav_ptr1))->__field)`,
i.e. the saved address plus `offsetof(__type1, __field)`.

Without it:
`(__const __type *) __CAST_PTR(__const) &((__const __type1 *) __CAST_PTR(__const) (__ptr))->__field`. -/
def PTR_CAST2_ALL (cfg : Config) (ty ty1 : TypeDesc) (ptrExpr : String)
    (ptr : Nat) (field : FieldDesc) (isConst : Bool) :
    Ptr × List Diagnostic :=
  if cfg.checkCastAlign then
    let sav_ptr1 := ptr
    let d1 : List Diagnostic :=
      if sav_ptr1 % ty1.alignment ≠ 0 then
        [{ sink := Sink.printf, typeName := ty1.name, expr := ptrExpr,
           alignment := ty1.alignment, address := sav_ptr1 }]
      else []
    let fieldExpr :=
      "&(((" ++ ty1.name ++ " *) (sav_ptr1))->" ++ field.name ++ ")"
    let res := PTR_CAST_ALL cfg ty fieldExpr
      (__CAST_PTR cfg sav_ptr1 + field.offset) isConst
    (res.fst, d1 ++ res.snd)
  else
    ({ addr := __CAST_PTR cfg (__CAST_PTR cfg ptr + field.offset),
       isConst := isConst }, [])

/-- `PTR_CAST(__type, __ptr)`: non-const whole-object cast. -/
def PTR_CAST (cfg : Config) (ty : TypeDesc) (ptrExpr : String)
    (ptr : Nat) : Ptr × List Diagnostic :=
  PTR_CAST_ALL cfg ty ptrExpr ptr false

/-- `PTR_CAST_CONST(__type, __ptr)`: const whole-object cast. -/
def PTR_CAST_CONST (cfg : Config) (ty : TypeDesc) (ptrExpr : String)
    (ptr : Nat) : Ptr × List Diagnostic :=
  PTR_CAST_ALL cfg ty ptrExpr ptr true

/-- `PTR_CAST2(__type, __type1, __ptr, __field)`: non-const field cast. -/
def PTR_CAST2 (cfg : Config) (ty ty1 : TypeDesc) (ptrExpr : String)
    (ptr : Nat) (field : FieldDesc) : Ptr × List Diagnostic :=
  PTR_CAST2_ALL cfg ty ty1 ptrExpr ptr field false

/-- `PTR_CAST2_CONST(__type, __type1, __ptr, __field)`: const field cast. -/
def PTR_CAST2_CONST (cfg : Config) (ty ty1 : TypeDesc) (ptrExpr : String)
    (ptr : Nat) (field : FieldDesc) : Ptr × List Diagnostic :=
  PTR_CAST2_ALL cfg ty ty1 ptrExpr ptr field true

/-! ## General lemmas shared by the claim theorems -/

theorem PTR_CAST_ALL_addr (cfg : Config) (ty : TypeDesc) (e : String)
    (p : Nat) (c : Bool) : (PTR_CAST_ALL cfg ty e p c).fst.addr = p := by
  rcases cfg with ⟨v, k⟩
  cases v <;> cases k <;> rfl

theorem PTR_CAST_ALL_isConst (cfg : Config) (ty : TypeDesc) (e : String)
    (p : Nat) (c : Bool) : (PTR_CAST_ALL cfg ty e p c).fst.isConst = c := by
  rcases cfg with ⟨v, k⟩
  cases v <;> cases k <;> rfl

theorem PTR_CAST2_ALL_addr (cfg : Config) (ty ty1 : TypeDesc) (e : String)
    (p : Nat) (f : FieldDesc) (c : Bool) :
    (PTR_CAST2_ALL cfg ty ty1 e p f c).fst.addr = p + f.offset := by
  rcases cfg with ⟨v, k⟩
  cases v <;> cases k <;>
    simp [PTR_CAST2_ALL, PTR_CAST_ALL, __CAST_PTR, castFromVoid, castToVoid]

theorem PTR_CAST2_ALL_isConst (cfg : Config) (ty ty1 : TypeDesc) (e : String)
    (p : Nat) (f : FieldDesc) (c : Bool) :
    (PTR_CAST2_ALL cfg ty ty1 e p f c).fst.isConst = c := by
  rcases cfg with ⟨v, k⟩
  cases v <;> cases k <;>
    simp [PTR_CAST2_ALL, PTR_CAST_ALL, __CAST_PTR, castFromVoid, castToVoid]

theorem PTR_CAST_ALL_snd_const_irrel (cfg : Config) (ty : TypeDesc)
    (e : String) (p : Nat) (c c' : Bool) :
    (PTR_CAST_ALL cfg ty e p c).snd = (PTR_CAST_ALL cfg ty e p c').snd := by
  rcases cfg with ⟨v, k⟩
  cases v <;> cases k <;> rfl

theorem PTR_CAST2_ALL_snd_const_irrel (cfg : Config) (ty ty1 : TypeDesc)
    (e : String) (p : Nat) (f : FieldDesc) (c c' : Bool) :
    (PTR_CAST2_ALL cfg ty ty1 e p f c).snd
      = (PTR_CAST2_ALL cfg ty ty1 e p f c').snd := by
  rcases cfg with ⟨v, k⟩
  cases v <;> cases k <;> rfl

/-! ## Claim theorems -/

/-- C1: for every address `a` and target type `T`, the whole-object
cast (`PTR_CAST` / `PTR_CAST_CONST`) returns a pointer whose address
equals `a`, in all four build configurations (any combination of
`CAST_VIA_VOID` and `CHECK_CAST_ALIGN`). -/
theorem C1_whole_cast_identity (cfg : Config) (ty : TypeDesc)
    (e : String) (a : Nat) :
    (PTR_CAST cfg ty e a).fst.addr = a ∧
    (PTR_CAST_CONST cfg ty e a).fst.addr = a :=
  ⟨PTR_CAST_ALL_addr cfg ty e a false, PTR_CAST_ALL_addr cfg ty e a true⟩

/-- C2: for every address `a`, intermediate type `I` and field `f`
within `I`, the field cast (`PTR_CAST2` / `PTR_CAST2_CONST`) returns a
pointer whose address equals `a + offsetof(I, f)`, in every build
configuration. -/
theorem C2_field_cast_offset (cfg : Config) (ty ty1 : TypeDesc)
    (e : String) (a : Nat) (f : FieldDesc) :
    (PTR_CAST2 cfg ty ty1 e a f).fst.addr = a + f.offset ∧
    (PTR_CAST2_CONST cfg ty ty1 e a f).fst.addr = a + f.offset :=
  ⟨PTR_CAST2_ALL_addr cfg ty ty1 e a f false,
   PTR_CAST2_ALL_addr cfg ty ty1 e a f true⟩

/-- C3: when validation is enabled and `a % alignof(T) ≠ 0`, the
whole-object cast emits exactly one diagnostic, which references
`alignof(T)` and the address `a`, and the returned pointer's address
is still `a`. -/
theorem C3_diagnostic_on_misaligned (cfg : Config) (ty : TypeDesc)
    (e : String) (a : Nat) (c : Bool)
    (hv : cfg.checkCastAlign = true) (hm : a % ty.alignment ≠ 0) :
    (PTR_CAST_ALL cfg ty e a c).fst.addr = a ∧
    (PTR_CAST_ALL cfg ty e a c).snd =
      [{ sink := Sink.log_message, typeName := ty.name, expr := e,
         alignment := ty.alignment, address := a }] := by
  refine ⟨PTR_CAST_ALL_addr cfg ty e a c, ?_⟩
  simp [PTR_CAST_ALL, hv, hm]

/-- Witness for C3 at a concrete misaligned input. -/
theorem C3_diagnostic_on_misaligned_witness :
    (PTR_CAST_ALL ⟨false, true⟩ ⟨"timeval", 4⟩ "vp" 3 false).fst.addr = 3 ∧
    (PTR_CAST_ALL ⟨false, true⟩ ⟨"timeval", 4⟩ "vp" 3 false).snd =
      [{ sink := Sink.log_message, typeName := "timeval", expr := "vp",
         alignment := 4, address := 3 }] :=
  C3_diagnostic_on_misaligned ⟨false, true⟩ ⟨"timeval", 4⟩ "vp" 3 false
    rfl (by decide)

/-- C4: when validation is enabled and `a % alignof(T) = 0`, the
whole-object cast emits no diagnostic at all. -/
theorem C4_silent_on_aligned (cfg : Config) (ty : TypeDesc)
    (e : String) (a : Nat) (c : Bool)
    (hv : cfg.checkCastAlign = true) (ha : a % ty.alignment = 0) :
    (PTR_CAST_ALL cfg ty e a c).snd = [] := by
  simp [PTR_CAST_ALL, hv, ha]

/-- Witness for C4 at a concrete aligned input. -/
theorem C4_silent_on_aligned_witness :
    (PTR_CAST_ALL ⟨true, true⟩ ⟨"timeval", 4⟩ "vp" 8 false).snd = [] :=
  C4_silent_on_aligned ⟨true, true⟩ ⟨"timeval", 4⟩ "vp" 8 false
    rfl (by decide)

/-- C5: evaluation of the validated field cast at a base address
misaligned for the intermediate type.  Both stages fire — the first
on the base address `0x1001` against the intermediate type's
alignment, the second on the field address `0x1005` against the
target type's alignment — but the first-stage diagnostic is emitted
through `printf`, not through the structured logger `log_message`
that the second stage uses, contradicting the claim that every
diagnostic goes through the single injected sink. -/
theorem C5_intermediate_stage_sink_is_printf :
    (PTR_CAST2 ⟨false, true⟩ ⟨"uint32_t", 4⟩ ⟨"struct ifs", 4⟩ "p"
        0x1001 ⟨"x", 4⟩).snd =
      [{ sink := Sink.printf, typeName := "struct ifs", expr := "p",
         alignment := 4, address := 0x1001 },
       { sink := Sink.log_message, typeName := "uint32_t",
         expr := "&(((struct ifs *) (sav_ptr1))->x)",
         alignment := 4, address := 0x1005 }] ∧
    Sink.printf ≠ Sink.log_message := by
  constructor
  · rfl
  · decide

/-- C6: for the intermediate type `I = \x7b pad: byte[1], x: uint32 \x7d`
(alignment 4, `offsetof(I,x) = 4`) and input address `a = 0x1001`, the
validated field cast computes field address `0x1005`, emits a
diagnostic referencing alignment requirement 4 and address `0x1005`
(since `0x1005 % 4 = 1`), and returns a pointer whose address is
`0x1005` — under either indirection setting. -/
theorem C6_field_two_stage_example :
    ∀ v : Bool,
      (PTR_CAST2 ⟨v, true⟩ ⟨"uint32_t", 4⟩ ⟨"I", 4⟩ "a"
          0x1001 ⟨"x", 4⟩).fst.addr = 0x1005 ∧
      ∃ d ∈ (PTR_CAST2 ⟨v, true⟩ ⟨"uint32_t", 4⟩ ⟨"I", 4⟩ "a"
          0x1001 ⟨"x", 4⟩).snd,
        d.alignment = 4 ∧ d.address = 0x1005 := by
  decide

/-- C7: for fixed pointer, type and validation setting, toggling only
the indirection strategy (`CAST_VIA_VOID` on or off) changes nothing
observable: the whole results (returned pointer and diagnostics) of
both operations are equal. -/
theorem C7_indirection_independence (k : Bool) (ty ty1 : TypeDesc)
    (e : String) (p : Nat) (f : FieldDesc) (c : Bool) :
    PTR_CAST_ALL ⟨true, k⟩ ty e p c = PTR_CAST_ALL ⟨false, k⟩ ty e p c ∧
    PTR_CAST2_ALL ⟨true, k⟩ ty ty1 e p f c
      = PTR_CAST2_ALL ⟨false, k⟩ ty ty1 e p f c := by
  cases k <;> exact ⟨rfl, rfl⟩

/-- C8: the whole-object cast performs no null check — a null input
pointer (address 0) is passed through unchanged in every build
configuration and for both const variants; the operation is a total
function with no failure path. -/
theorem C8_null_passed_through (cfg : Config) (ty : TypeDesc)
    (e : String) (c : Bool) :
    (PTR_CAST_ALL cfg ty e 0 c).fst.addr = 0 :=
  PTR_CAST_ALL_addr cfg ty e 0 c

/-- C9: with validation enabled, a null input pointer (address 0)
never triggers a diagnostic from the whole-object cast, since
`0 % alignof(T) = 0` for every alignment. -/
theorem C9_null_never_diagnosed (cfg : Config) (ty : TypeDesc)
    (e : String) (c : Bool) (hv : cfg.checkCastAlign = true) :
    (PTR_CAST_ALL cfg ty e 0 c).snd = [] := by
  simp [PTR_CAST_ALL, hv]

/-- Witness for C9 at a concrete type. -/
theorem C9_null_never_diagnosed_witness :
    (PTR_CAST_ALL ⟨false, true⟩ ⟨"sockaddr", 8⟩ "np" 0 true).snd = [] :=
  C9_null_never_diagnosed ⟨false, true⟩ ⟨"sockaddr", 8⟩ "np" true rfl

/-- C10: for every input, configuration and field, the const and
non-const variants return the same address and the same diagnostics,
differing only in the const qualification of the result. -/
theorem C10_const_variants_agree (cfg : Config) (ty ty1 : TypeDesc)
    (e : String) (p : Nat) (f : FieldDesc) :
    (PTR_CAST cfg ty e p).fst.addr = (PTR_CAST_CONST cfg ty e p).fst.addr ∧
    (PTR_CAST cfg ty e p).snd = (PTR_CAST_CONST cfg ty e p).snd ∧
    (PTR_CAST2 cfg ty ty1 e p f).fst.addr
      = (PTR_CAST2_CONST cfg ty ty1 e p f).fst.addr ∧
    (PTR_CAST2 cfg ty ty1 e p f).snd
      = (PTR_CAST2_CONST cfg ty ty1 e p f).snd ∧
    (PTR_CAST cfg ty e p).fst.isConst = false ∧
    (PTR_CAST_CONST cfg ty e p).fst.isConst = true ∧
    (PTR_CAST2 cfg ty ty1 e p f).fst.isConst = false ∧
    (PTR_CAST2_CONST cfg ty ty1 e p f).fst.isConst = true :=
  ⟨(PTR_CAST_ALL_addr cfg ty e p false).trans
      (PTR_CAST_ALL_addr cfg ty e p true).symm,
   PTR_CAST_ALL_snd_const_irrel cfg ty e p false true,
   (PTR_CAST2_ALL_addr cfg ty ty1 e p f false).trans
      (PTR_CAST2_ALL_addr cfg ty ty1 e p f true).symm,
   PTR_CAST2_ALL_snd_const_irrel cfg ty ty1 e p f false true,
   PTR_CAST_ALL_isConst cfg ty e p false,
   PTR_CAST_ALL_isConst cfg ty e p true,
   PTR_CAST2_ALL_isConst cfg ty ty1 e p f false,
   PTR_CAST2_ALL_isConst cfg ty ty1 e p f true⟩
